import Mathlib

/-!
# Verification of the `flaps` feature-flag evaluation core

A shallow embedding of the pure evaluation path of the `flaps-core` crate
(`crates/flaps-core/src`): the data model for flags, environments, targeting
rules, conditions, segments and evaluation contexts, plus the `Evaluator` that
combines them into an `EvaluationResult`.

Modelling conventions:
* Rust `u8`/`u32` values are `Nat` with explicit `% 2 ^ 32` where overflow
  matters (only inside the Murmur3 hash; the rollout percentage never
  overflows because `hash % 100 < 100 < 256`).
* Rust `f64` attribute numbers are modelled as `Rat`; `f64::EPSILON` is the
  exact rational `2⁻⁵²`.  No claim in this development depends on rounding of
  `f64` arithmetic, only on the variant structure of comparisons.
* Rust `HashMap` fields (`Flag.environments`, the evaluator's segment map,
  the context's attribute bag) are association lists looked up with
  `List.lookup`; insertion replaces the binding of an existing key, so keys
  stay unique, matching `HashMap` semantics.
* `Uuid` identifiers (`RuleId`, `SegmentId`) are modelled as `Nat`: the code
  only ever compares them for equality and uses them as map keys.
* Fields the evaluator never reads (display names, descriptions, tags,
  project ids, timestamps, audit user ids, colors) are omitted from the
  embedded structures.
-/

namespace Flaps

/-- `FlagValue` from `flag.rs`: tagged union `{Boolean, String}`. -/
inductive FlagValue where
  | boolean (b : Bool)
  | string (s : String)
deriving DecidableEq, Repr

/-- `FlagValue::is_truthy`: the boolean is true or the string is non-empty. -/
def FlagValue.is_truthy : FlagValue → Bool
  | .boolean b => b
  | .string s => !s.isEmpty

/-- Rule identifier (`RuleId(Uuid)` in `rule.rs`), modelled as `Nat`. -/
abbrev RuleId := Nat

/-- Segment identifier (`SegmentId(Uuid)` in `segment.rs`), modelled as `Nat`. -/
abbrev SegmentId := Nat

/-- `AttributeValue` from `rule.rs`: tagged union over string, number (f64,
modelled as `Rat`), boolean, string-list and segment-reference. -/
inductive AttributeValue where
  | string (s : String)
  | number (n : Rat)
  | boolean (b : Bool)
  | stringList (l : List String)
  | segmentRef (id : SegmentId)
deriving DecidableEq, Repr

/-- `AttributeValue::as_str`. -/
def AttributeValue.as_str : AttributeValue → Option String
  | .string s => some s
  | _ => none

/-- `AttributeValue::as_number`. -/
def AttributeValue.as_number : AttributeValue → Option Rat
  | .number n => some n
  | _ => none

/-- `AttributeValue::as_bool`. -/
def AttributeValue.as_bool : AttributeValue → Option Bool
  | .boolean b => some b
  | _ => none

/-- `AttributeValue::as_string_list`. -/
def AttributeValue.as_string_list : AttributeValue → Option (List String)
  | .stringList l => some l
  | _ => none

/-- `AttributeValue::as_segment_ref`. -/
def AttributeValue.as_segment_ref : AttributeValue → Option SegmentId
  | .segmentRef id => some id
  | _ => none

/-- True when the two values are built from the same variant of the
`AttributeValue` union (used to state the type-mismatch claims). -/
def AttributeValue.sameVariant : AttributeValue → AttributeValue → Bool
  | .string _, .string _ => true
  | .number _, .number _ => true
  | .boolean _, .boolean _ => true
  | .stringList _, .stringList _ => true
  | .segmentRef _, .segmentRef _ => true
  | _, _ => false

/-- `Operator` from `rule.rs`: the sixteen comparison operators. -/
inductive Operator where
  | Equals
  | NotEquals
  | Contains
  | StartsWith
  | EndsWith
  | In
  | NotIn
  | GreaterThan
  | GreaterThanOrEqual
  | LessThan
  | LessThanOrEqual
  | SemverGreaterThan
  | SemverLessThan
  | MatchesSegment
  | NotMatchesSegment
  | Regex
deriving DecidableEq, Repr

/-- `Condition` from `rule.rs`. -/
structure Condition where
  «attribute» : String
  operator : Operator
  value : AttributeValue
deriving DecidableEq, Repr

/-- `TargetingRule` from `rule.rs` (the unused `description` field is kept to
mirror the source record). -/
structure TargetingRule where
  id : RuleId
  priority : Nat
  conditions : List Condition
  value : FlagValue
  rollout_percentage : Option Nat
  description : Option String
deriving DecidableEq, Repr

/-- `TargetingRule::with_rollout`: stores `percentage.min(100)`. -/
def TargetingRule.with_rollout (r : TargetingRule) (percentage : Nat) : TargetingRule :=
  { r with rollout_percentage := some (min percentage 100) }

/-- `SegmentCondition` from `segment.rs`. -/
structure SegmentCondition where
  «attribute» : String
  operator : Operator
  value : AttributeValue
deriving DecidableEq, Repr

/-- `SegmentRule` from `segment.rs`: conditions are ANDed. -/
structure SegmentRule where
  conditions : List SegmentCondition
deriving DecidableEq, Repr

/-- `Segment` from `segment.rs` (identity, membership lists and rules; the
display/audit fields are omitted). -/
structure Segment where
  id : SegmentId
  rules : List SegmentRule
  included_users : List String
  excluded_users : List String
deriving DecidableEq, Repr

/-- `Segment::is_excluded`. -/
def Segment.is_excluded (s : Segment) (user_id : String) : Bool :=
  s.excluded_users.any (fun id => id == user_id)

/-- `Segment::is_included`. -/
def Segment.is_included (s : Segment) (user_id : String) : Bool :=
  s.included_users.any (fun id => id == user_id)

/-- `EnvironmentConfig` from `environment.rs`. -/
structure EnvironmentConfig where
  enabled : Bool
  rules : List TargetingRule
  default_value : FlagValue
  rollout_percentage : Option Nat
  requires_approval : Bool
deriving DecidableEq, Repr

/-- `EnvironmentConfig::with_rollout`: stores `percentage.min(100)`. -/
def EnvironmentConfig.with_rollout (c : EnvironmentConfig) (percentage : Nat) :
    EnvironmentConfig :=
  { c with rollout_percentage := some (min percentage 100) }

/-- `EnvironmentConfig::disabled`. -/
def EnvironmentConfig.disabled : EnvironmentConfig :=
  { enabled := false, rules := [], default_value := .boolean false,
    rollout_percentage := none, requires_approval := false }

/-- `FlagType` from `flag.rs`. -/
inductive FlagType where
  | boolean
  | string (variants : List String)
deriving DecidableEq, Repr

/-- `Flag` from `flag.rs`, restricted to the fields the evaluator reads:
`key`, `flag_type` and the per-environment configuration map. -/
structure Flag where
  key : String
  flag_type : FlagType
  environments : List (String × EnvironmentConfig)
deriving DecidableEq, Repr

/-- `Flag::get_environment`. -/
def Flag.get_environment (f : Flag) (env_key : String) : Option EnvironmentConfig :=
  f.environments.lookup env_key

/-- `Flag::default_value`: `false` for boolean flags, the first declared
variant (or the empty string) for string flags. -/
def Flag.default_value (f : Flag) : FlagValue :=
  match f.flag_type with
  | .boolean => .boolean false
  | .string variants => .string (variants.head?.getD "")

/-- Debug rendering of a string, mirroring Rust's `{:?}` for `String`
(surrounding quotes; escape sequences are not modelled). -/
def debugString (s : String) : String := "\"" ++ s ++ "\""

/-- Debug rendering of an `AttributeValue`, mirroring the derived `Debug`
implementation used by `format!("{}:{:?}", k, v)` in
`EvaluationContext::effective_user_id`.  The `f64` Debug formatting of a
number is modelled as the exact rational `num/den`. -/
def AttributeValue.debugRender : AttributeValue → String
  | .string s => "String(" ++ debugString s ++ ")"
  | .number q => "Number(" ++ toString q.num ++ "/" ++ toString q.den ++ ")"
  | .boolean b => "Boolean(" ++ (if b then "true" else "false") ++ ")"
  | .stringList l => "StringList([" ++ String.intercalate ", " (l.map debugString) ++ "])"
  | .segmentRef sid => "SegmentRef(SegmentId(" ++ toString sid ++ "))"

/-- Ascending lexicographic sort of a list of strings.  `Vec::<String>::sort`
in Rust is a stable sort by `Ord` (UTF-8 byte order coincides with the
code-point order used by Lean's `String` order); a stable sort is uniquely
determined by its ordering, so it is modelled by insertion sort, which the
kernel can evaluate. -/
def sortStrings (l : List String) : List String :=
  l.insertionSort (· ≤ ·)

/-- `EvaluationContext` from `context.rs`: the optional user id plus the
custom attribute map (modelled as an association list with unique keys). -/
structure EvaluationContext where
  user_id : Option String
  attributes : List (String × AttributeValue)
deriving DecidableEq, Repr

/-- `EvaluationContext::new` / `Default::default`. -/
def EvaluationContext.new : EvaluationContext := ⟨none, []⟩

/-- `EvaluationContext::with_user_id`. -/
def EvaluationContext.with_user_id (user_id : String) : EvaluationContext :=
  ⟨some user_id, []⟩

/-- `HashMap::insert` on the association list: replace the binding of an
existing key in place, otherwise append the new binding. -/
def assocInsert (l : List (String × AttributeValue)) (k : String) (v : AttributeValue) :
    List (String × AttributeValue) :=
  if l.any (fun kv => kv.1 == k) then
    l.map (fun kv => if kv.1 == k then (k, v) else kv)
  else
    l ++ [(k, v)]

/-- `EvaluationContext::set`. -/
def EvaluationContext.set (c : EvaluationContext) (key : String) (value : AttributeValue) :
    EvaluationContext :=
  { c with attributes := assocInsert c.attributes key value }

/-- `EvaluationContext::get`. -/
def EvaluationContext.get (c : EvaluationContext) (key : String) : Option AttributeValue :=
  c.attributes.lookup key

/-- `EvaluationContext::effective_user_id`: the user id verbatim when set,
otherwise `anonymous:` followed by the sorted, comma-joined
`key:debug-rendering-of-value` pairs of the attributes. -/
def EvaluationContext.effective_user_id (c : EvaluationContext) : String :=
  match c.user_id with
  | some user_id => user_id
  | none =>
    let parts := c.attributes.map (fun kv => kv.1 ++ ":" ++ kv.2.debugRender)
    "anonymous:" ++ String.intercalate "," (sortStrings parts)

/-! ## Murmur3-x86-32

The `murmur3::murmur3_32` dependency, reading the whole input from a
`Cursor` with seed 0.  All 32-bit arithmetic is `Nat` arithmetic reduced
`% 2 ^ 32`.  Bytes are consumed four at a time in little-endian order; a
final chunk of 1–3 bytes is mixed without the `rotl(13)*5+n` step; the byte
count is folded in before the final avalanche. -/

/-- 32-bit left rotation (`u32::rotate_left`) for `x < 2 ^ 32`, `0 < r < 32`. -/
def rotl32 (x r : Nat) : Nat := ((x <<< r) ||| (x >>> (32 - r))) % 2 ^ 32

/-- The Murmur3 per-chunk mixing of `k`: `k *= c1; k = rotl(k, 15); k *= c2`. -/
def murmurMixK (k : Nat) : Nat :=
  (rotl32 ((k * 0xcc9e2d51) % 2 ^ 32) 15 * 0x1b873593) % 2 ^ 32

/-- The Murmur3 read loop: full 4-byte chunks update the hash with the
rotate/multiply/add step; a trailing 1–3 byte chunk is only XOR-mixed. -/
def murmurGo (h : Nat) : List Nat → Nat
  | b0 :: b1 :: b2 :: b3 :: rest =>
    let k := b0 + b1 * 2 ^ 8 + b2 * 2 ^ 16 + b3 * 2 ^ 24
    let h := h ^^^ murmurMixK k
    let h := rotl32 h 13
    murmurGo ((h * 5 + 0xe6546b64) % 2 ^ 32) rest
  | [b0, b1, b2] => h ^^^ murmurMixK (b0 + b1 * 2 ^ 8 + b2 * 2 ^ 16)
  | [b0, b1] => h ^^^ murmurMixK (b0 + b1 * 2 ^ 8)
  | [b0] => h ^^^ murmurMixK b0
  | [] => h

/-- The final Murmur3 avalanche. -/
def murmurFinalize (h : Nat) : Nat :=
  let h := h ^^^ (h >>> 16)
  let h := (h * 0x85ebca6b) % 2 ^ 32
  let h := h ^^^ (h >>> 13)
  let h := (h * 0xc2b2ae35) % 2 ^ 32
  h ^^^ (h >>> 16)

/-- Murmur3-x86-32 of a byte list with the given seed. -/
def murmur3_32 (bytes : List Nat) (seed : Nat) : Nat :=
  murmurFinalize (murmurGo (seed % 2 ^ 32) bytes ^^^ bytes.length % 2 ^ 32)

/-- UTF-8 encoding of one character (as `Nat` byte values). -/
def utf8Char (c : Char) : List Nat :=
  let n := c.toNat
  if n < 0x80 then [n]
  else if n < 0x800 then [0xC0 + n / 0x40, 0x80 + n % 0x40]
  else if n < 0x10000 then
    [0xE0 + n / 0x1000, 0x80 + n / 0x40 % 0x40, 0x80 + n % 0x40]
  else
    [0xF0 + n / 0x40000, 0x80 + n / 0x1000 % 0x40, 0x80 + n / 0x40 % 0x40,
      0x80 + n % 0x40]

/-- The UTF-8 bytes of a string (`str::as_bytes`). -/
def strBytes (s : String) : List Nat := (s.data.map utf8Char).flatten

/-- `EvaluationReason` from `evaluation.rs`. -/
inductive EvaluationReason where
  | Default
  | TargetingMatch
  | RolloutIncluded
  | RolloutExcluded
  | FlagDisabled
  | EnvironmentNotFound
  | FlagNotFound
  | Error
deriving DecidableEq, Repr

/-- `EvaluationResult` from `evaluation.rs`. -/
structure EvaluationResult where
  value : FlagValue
  reason : EvaluationReason
  rule_id : Option RuleId
  in_rollout : Option Bool
deriving DecidableEq, Repr

/-- `EvaluationResult::default_value`. -/
def EvaluationResult.default_value (value : FlagValue) : EvaluationResult :=
  ⟨value, .Default, none, none⟩

/-- `EvaluationResult::disabled`. -/
def EvaluationResult.disabled (value : FlagValue) : EvaluationResult :=
  ⟨value, .FlagDisabled, none, none⟩

/-- `EvaluationResult::flag_not_found`. -/
def EvaluationResult.flag_not_found : EvaluationResult :=
  ⟨.boolean false, .FlagNotFound, none, none⟩

/-- `EvaluationResult::environment_not_found`. -/
def EvaluationResult.environment_not_found : EvaluationResult :=
  ⟨.boolean false, .EnvironmentNotFound, none, none⟩

/-- `EvaluationResult::is_enabled`: false for the five disabling reasons,
otherwise the truthiness of the value. -/
def EvaluationResult.is_enabled (r : EvaluationResult) : Bool :=
  match r.reason with
  | .FlagDisabled | .FlagNotFound | .EnvironmentNotFound | .RolloutExcluded
  | .Error => false
  | .Default | .TargetingMatch | .RolloutIncluded => r.value.is_truthy

/-- The `Evaluator` from `evaluation.rs`: holds the pre-loaded segment map. -/
structure Evaluator where
  segments : List (SegmentId × Segment)
deriving DecidableEq, Repr

/-- `Evaluator::is_in_rollout`.  `&self` is unused in the source; the
`(hash % 100) as u8` cast is lossless because `hash % 100 < 100 < 256`. -/
def Evaluator.is_in_rollout (user_id flag_key : String) (percentage : Nat) : Bool :=
  if 100 ≤ percentage then true
  else if percentage = 0 then false
  else
    let key := flag_key ++ user_id
    let hash := murmur3_32 (strBytes key) 0
    let bucket := hash % 100
    decide (bucket < percentage)

/-- `f64::EPSILON` as an exact rational: `2 ^ -52`. -/
def f64Epsilon : Rat := 1 / 2 ^ 52

/-- `Evaluator::values_equal`: same-variant comparison only; numbers compare
within `f64::EPSILON`. -/
def Evaluator.values_equal : AttributeValue → AttributeValue → Bool
  | .string a, .string b => a == b
  | .number a, .number b => decide (|a - b| < f64Epsilon)
  | .boolean a, .boolean b => a == b
  | _, _ => false

/-- `Evaluator::compare_values`: the operator dispatch (`&self` is unused in
the source).  The segment operators are handled before this function is
reached and here fall through to `false`, as do the unimplemented semver and
regex operators. -/
def Evaluator.compare_values (actual : AttributeValue) (operator : Operator)
    (expected : AttributeValue) : Bool :=
  match operator with
  | .Equals => Evaluator.values_equal actual expected
  | .NotEquals => !Evaluator.values_equal actual expected
  | .Contains =>
    match actual.as_str, expected.as_str with
    | some actual_str, some expected_str =>
      decide (expected_str.data <:+: actual_str.data)
    | _, _ => false
  | .StartsWith =>
    match actual.as_str, expected.as_str with
    | some actual_str, some expected_str => actual_str.startsWith expected_str
    | _, _ => false
  | .EndsWith =>
    match actual.as_str, expected.as_str with
    | some actual_str, some expected_str => actual_str.endsWith expected_str
    | _, _ => false
  | .In =>
    match expected.as_string_list with
    | some list =>
      match actual.as_str with
      | some actual_str => list.any (fun s => s == actual_str)
      | none => false
    | none => false
  | .NotIn =>
    match expected.as_string_list with
    | some list =>
      match actual.as_str with
      | some actual_str => !list.any (fun s => s == actual_str)
      | none => true
    | none => true
  | .GreaterThan =>
    match actual.as_number, expected.as_number with
    | some a, some b => decide (a > b)
    | _, _ => false
  | .GreaterThanOrEqual =>
    match actual.as_number, expected.as_number with
    | some a, some b => decide (a ≥ b)
    | _, _ => false
  | .LessThan =>
    match actual.as_number, expected.as_number with
    | some a, some b => decide (a < b)
    | _, _ => false
  | .LessThanOrEqual =>
    match actual.as_number, expected.as_number with
    | some a, some b => decide (a ≤ b)
    | _, _ => false
  | .SemverGreaterThan => false
  | .SemverLessThan => false
  | .Regex => false
  | .MatchesSegment => false
  | .NotMatchesSegment => false

/-- The dispatch body of `Evaluator::evaluate_condition`, parameterised by
the segment-membership function it recurses into: the two segment operators
delegate to `membership` (negated for `NotMatchesSegment`, and false when
the condition value is not a segment reference); every other operator looks
the named attribute up in the context — a missing attribute fails the
condition — and compares with `Evaluator.compare_values`. -/
def evalConditionWith (membership : SegmentId → EvaluationContext → Bool)
    (condition : Condition) (context : EvaluationContext) : Bool :=
  if condition.operator = .MatchesSegment then
    match condition.value.as_segment_ref with
    | some segment_id => membership segment_id context
    | none => false
  else if condition.operator = .NotMatchesSegment then
    match condition.value.as_segment_ref with
    | some segment_id => !membership segment_id context
    | none => false
  else
    match context.get condition.attribute with
    | some attr_value =>
      Evaluator.compare_values attr_value condition.operator condition.value
    | none => false

/-- `Evaluator::evaluate_segment_membership`, with an explicit recursion
bound.  The source recurses back into condition evaluation through
`MatchesSegment` / `NotMatchesSegment` conditions inside segment rules with
no occurs-check, so it has no termination guarantee; the `fuel` argument —
consumed once per segment entered — makes the embedding total (`fuel = 0` is
reached only on chains of segment references deeper than the initial fuel).
Unknown segment ⇒ false; then explicit exclusion, explicit inclusion, and
OR-of-AND rule evaluation (each `SegmentCondition` is repackaged as a
`Condition`, exactly as the source clones it). -/
def Evaluator.evaluate_segment_membership_fueled (ev : Evaluator) :
    Nat → SegmentId → EvaluationContext → Bool
  | 0, _, _ => false
  | fuel + 1, segment_id, context =>
    match ev.segments.lookup segment_id with
    | none => false
    | some segment =>
      if (match context.user_id with
          | some user_id => segment.is_excluded user_id
          | none => false) then false
      else if (match context.user_id with
          | some user_id => segment.is_included user_id
          | none => false) then true
      else
        segment.rules.any (fun rule =>
          rule.conditions.all (fun c =>
            evalConditionWith (ev.evaluate_segment_membership_fueled fuel)
              ⟨c.attribute, c.operator, c.value⟩ context))

/-- `Evaluator::evaluate_condition` with the same recursion bound. -/
def Evaluator.evaluate_condition_fueled (ev : Evaluator) (fuel : Nat)
    (condition : Condition) (context : EvaluationContext) : Bool :=
  evalConditionWith (ev.evaluate_segment_membership_fueled fuel) condition context

/-- Sufficient fuel for the segment recursion: a terminating run of the
source never revisits a segment id (the context and segment map are fixed,
so a revisit would repeat the identical call forever), hence its chain of
active segment lookups is bounded by the number of stored segments. -/
def Evaluator.condition_fuel (ev : Evaluator) : Nat := ev.segments.length + 1

/-- `Evaluator::evaluate_condition` at the sufficient fuel. -/
def Evaluator.evaluate_condition (ev : Evaluator) (condition : Condition)
    (context : EvaluationContext) : Bool :=
  ev.evaluate_condition_fueled ev.condition_fuel condition context

/-- `Evaluator::evaluate_segment_membership` at the sufficient fuel. -/
def Evaluator.evaluate_segment_membership (ev : Evaluator) (segment_id : SegmentId)
    (context : EvaluationContext) : Bool :=
  ev.evaluate_segment_membership_fueled ev.condition_fuel segment_id context

/-- `Evaluator::evaluate_rule`: empty conditions are a catch-all, otherwise
all conditions must match. -/
def Evaluator.evaluate_rule (ev : Evaluator) (rule : TargetingRule)
    (context : EvaluationContext) : Bool :=
  if rule.conditions.isEmpty then true
  else rule.conditions.all (fun c => ev.evaluate_condition c context)

/-- The rule-priority preorder used by `rules.sort_by_key(|r| r.priority)`. -/
def rulePriorityLE (a b : TargetingRule) : Prop := a.priority ≤ b.priority

instance : DecidableRel rulePriorityLE := fun a b => Nat.decLe a.priority b.priority

instance : IsTotal TargetingRule rulePriorityLE := ⟨fun a b => Nat.le_total a.priority b.priority⟩

instance : IsTrans TargetingRule rulePriorityLE := ⟨fun _ _ _ => Nat.le_trans⟩

/-- `rules.sort_by_key(|r| r.priority)` from `Evaluator::evaluate`: a stable
sort by ascending priority.  Rust's `sort_by_key` is stable; a stable sort
is uniquely determined by its ordering, so it is modelled by insertion
sort, which the kernel can evaluate. -/
def sortRules (rules : List TargetingRule) : List TargetingRule :=
  rules.insertionSort rulePriorityLE

/-- The `for rule in rules` loop of `Evaluator::evaluate` over the sorted
rules: the first matching rule returns a `TargetingMatch` result, except
that a matching rule whose rollout excludes the user is skipped (`continue`)
rather than ending the scan.  `none` means the loop fell through. -/
def Evaluator.evaluate_rules (ev : Evaluator) (flag_key : String)
    (context : EvaluationContext) : List TargetingRule → Option EvaluationResult
  | [] => none
  | rule :: rest =>
    if ev.evaluate_rule rule context then
      match rule.rollout_percentage with
      | some percentage =>
        if Evaluator.is_in_rollout context.effective_user_id flag_key percentage then
          some ⟨rule.value, .TargetingMatch, some rule.id, some true⟩
        else
          ev.evaluate_rules flag_key context rest
      | none => some ⟨rule.value, .TargetingMatch, some rule.id, none⟩
    else
      ev.evaluate_rules flag_key context rest

/-- Steps 4–5 of `Evaluator::evaluate`, reached when no rule produced a
result: the environment's global rollout if configured, else the
environment default. -/
def Evaluator.apply_global_rollout (flag : Flag) (env_config : EnvironmentConfig)
    (context : EvaluationContext) : EvaluationResult :=
  match env_config.rollout_percentage with
  | some percentage =>
    let user_id := context.effective_user_id
    let in_rollout := Evaluator.is_in_rollout user_id flag.key percentage
    { value := if in_rollout then env_config.default_value else flag.default_value,
      reason := if in_rollout then .RolloutIncluded else .RolloutExcluded,
      rule_id := none,
      in_rollout := some in_rollout }
  | none => EvaluationResult.default_value env_config.default_value

/-- `Evaluator::evaluate`: environment lookup, enabled check, sorted-rule
scan, then global rollout / default. -/
def Evaluator.evaluate (ev : Evaluator) (flag : Flag) (environment : String)
    (context : EvaluationContext) : EvaluationResult :=
  match flag.get_environment environment with
  | none => EvaluationResult.environment_not_found
  | some env_config =>
    if env_config.enabled = false then
      EvaluationResult.disabled flag.default_value
    else
      match ev.evaluate_rules flag.key context (sortRules env_config.rules) with
      | some result => result
      | none => Evaluator.apply_global_rollout flag env_config context

/-! ## Big-step semantics of the segment recursion

`Evaluator::evaluate_condition` and `Evaluator::evaluate_segment_membership`
are mutually recursive through `MatchesSegment` / `NotMatchesSegment`
conditions with no occurs-check, so the source recursion need not terminate.
`BigStep ev ctx j b` is the call graph of that recursion as an inductive
relation: a derivation exists exactly when the corresponding source call
returns, and its result is `b`.  The four judgment forms are the four loops
involved: a single condition, the `.all` over one segment rule's conditions
(short-circuiting), the `for` loop over a segment's rules, and a membership
query. -/

/-- Judgment forms for `BigStep`. -/
inductive EvalForm where
  | cond (c : Condition)
  | conds (cs : List SegmentCondition)
  | rules (rs : List SegmentRule)
  | mem (sid : SegmentId)
deriving DecidableEq

/-- Big-step evaluation relation of the source's segment recursion. -/
inductive BigStep (ev : Evaluator) (ctx : EvaluationContext) : EvalForm → Bool → Prop where
  | matchesSeg {c : Condition} {sid : SegmentId} {b : Bool} :
      c.operator = .MatchesSegment → c.value.as_segment_ref = some sid →
      BigStep ev ctx (.mem sid) b → BigStep ev ctx (.cond c) b
  | matchesSegNoRef {c : Condition} :
      c.operator = .MatchesSegment → c.value.as_segment_ref = none →
      BigStep ev ctx (.cond c) false
  | notMatchesSeg {c : Condition} {sid : SegmentId} {b : Bool} :
      c.operator = .NotMatchesSegment → c.value.as_segment_ref = some sid →
      BigStep ev ctx (.mem sid) b → BigStep ev ctx (.cond c) (!b)
  | notMatchesSegNoRef {c : Condition} :
      c.operator = .NotMatchesSegment → c.value.as_segment_ref = none →
      BigStep ev ctx (.cond c) false
  | attrFound {c : Condition} {v : AttributeValue} :
      c.operator ≠ .MatchesSegment → c.operator ≠ .NotMatchesSegment →
      ctx.get c.attribute = some v →
      BigStep ev ctx (.cond c) (Evaluator.compare_values v c.operator c.value)
  | attrMissing {c : Condition} :
      c.operator ≠ .MatchesSegment → c.operator ≠ .NotMatchesSegment →
      ctx.get c.attribute = none → BigStep ev ctx (.cond c) false
  | condsNil : BigStep ev ctx (.conds []) true
  | condsConsFalse {c : SegmentCondition} {cs : List SegmentCondition} :
      BigStep ev ctx (.cond ⟨c.attribute, c.operator, c.value⟩) false →
      BigStep ev ctx (.conds (c :: cs)) false
  | condsConsTrue {c : SegmentCondition} {cs : List SegmentCondition} {b : Bool} :
      BigStep ev ctx (.cond ⟨c.attribute, c.operator, c.value⟩) true →
      BigStep ev ctx (.conds cs) b → BigStep ev ctx (.conds (c :: cs)) b
  | rulesNil : BigStep ev ctx (.rules []) false
  | rulesConsTrue {r : SegmentRule} {rs : List SegmentRule} :
      BigStep ev ctx (.conds r.conditions) true →
      BigStep ev ctx (.rules (r :: rs)) true
  | rulesConsFalse {r : SegmentRule} {rs : List SegmentRule} {b : Bool} :
      BigStep ev ctx (.conds r.conditions) false → BigStep ev ctx (.rules rs) b →
      BigStep ev ctx (.rules (r :: rs)) b
  | memNotFound {sid : SegmentId} :
      ev.segments.lookup sid = none → BigStep ev ctx (.mem sid) false
  | memExcluded {sid : SegmentId} {seg : Segment} {user_id : String} :
      ev.segments.lookup sid = some seg → ctx.user_id = some user_id →
      seg.is_excluded user_id = true → BigStep ev ctx (.mem sid) false
  | memIncluded {sid : SegmentId} {seg : Segment} {user_id : String} :
      ev.segments.lookup sid = some seg →
      (match ctx.user_id with
        | some uid => seg.is_excluded uid
        | none => false) = false →
      ctx.user_id = some user_id → seg.is_included user_id = true →
      BigStep ev ctx (.mem sid) true
  | memRules {sid : SegmentId} {seg : Segment} {b : Bool} :
      ev.segments.lookup sid = some seg →
      (match ctx.user_id with
        | some uid => seg.is_excluded uid
        | none => false) = false →
      (match ctx.user_id with
        | some uid => seg.is_included uid
        | none => false) = false →
      BigStep ev ctx (.rules seg.rules) b → BigStep ev ctx (.mem sid) b

/-- Interpretation of a judgment form by the fueled functions.  `mem` is read
at `fuel + 1` because the source consumes one fuel level on entering a
segment; the other three forms run their loops with conditions at `fuel`. -/
def evalFormFueled (ev : Evaluator) (fuel : Nat) (ctx : EvaluationContext) :
    EvalForm → Bool
  | .cond c => ev.evaluate_condition_fueled fuel c ctx
  | .conds cs =>
    cs.all (fun c =>
      ev.evaluate_condition_fueled fuel ⟨c.attribute, c.operator, c.value⟩ ctx)
  | .rules rs =>
    rs.any (fun rule =>
      rule.conditions.all (fun c =>
        ev.evaluate_condition_fueled fuel ⟨c.attribute, c.operator, c.value⟩ ctx))
  | .mem sid => ev.evaluate_segment_membership_fueled (fuel + 1) sid ctx

/-! ## Concrete instances used by witnesses and counterexamples -/

/-- An evaluator with no segments. -/
def evEmpty : Evaluator := ⟨[]⟩

/-- The string flag of the kill-switch regression test: enabled in `dev`
with value `variant-a`, disabled in `prod`. -/
def flagAB : Flag :=
  ⟨"ab-test", .string ["variant-a", "variant-b"],
    [("dev", ⟨true, [], .string "variant-a", none, false⟩),
     ("prod", EnvironmentConfig.disabled)]⟩

/-- A catch-all rule with priority 1 and a 1% rollout. -/
def ruleRoll : TargetingRule := ⟨1, 1, [], .string "A", some 1, none⟩

/-- A catch-all rule with priority 2 and no rollout. -/
def rulePlain : TargetingRule := ⟨2, 2, [], .boolean true, none, none⟩

/-- An enabled config carrying `ruleRoll` then `rulePlain`. -/
def cfgRoll : EnvironmentConfig := ⟨true, [ruleRoll, rulePlain], .boolean false, none, false⟩

/-- The flag `my-flag` with `cfgRoll` in `prod`.  For the context user
`user-123`, `murmur3_32("my-flaguser-123") % 100 = 42`, so a 1% rollout
excludes the user and a 50% rollout includes them. -/
def flagRoll : Flag := ⟨"my-flag", .boolean, [("prod", cfgRoll)]⟩

/-- The context with user id `user-123`. -/
def ctx123 : EvaluationContext := EvaluationContext.with_user_id "user-123"

/-- A user excluded, included and matched by a catch-all rule. -/
def segExc : Segment := ⟨7, [⟨[]⟩], ["u7"], ["u7"]⟩

/-- A user included (not excluded), also matched by a catch-all rule. -/
def segInc : Segment := ⟨9, [⟨[]⟩], ["u7"], []⟩

/-- A segment with one catch-all rule and empty membership lists. -/
def segRules : Segment := ⟨10, [⟨[]⟩], [], []⟩

/-- The evaluator holding the three segments above. -/
def evSegs : Evaluator := ⟨[(7, segExc), (9, segInc), (10, segRules)]⟩

/-- A catch-all rule with priority 1, a 100% rollout and value `"A"`. -/
def ruleA100 : TargetingRule := ⟨1, 1, [], .string "A", some 100, none⟩

/-- A catch-all rule with priority 2, no rollout and value `"B"`. -/
def ruleB100 : TargetingRule := ⟨2, 2, [], .string "B", none, none⟩

/-- An enabled config carrying `ruleA100` then `ruleB100`. -/
def cfgPrio : EnvironmentConfig := ⟨true, [ruleA100, ruleB100], .boolean false, none, false⟩

/-- A flag with `cfgPrio` in `prod`. -/
def flagPrio : Flag := ⟨"prio-flag", .boolean, [("prod", cfgPrio)]⟩

/-- The evaluator used with `flagPrio` (no segments). -/
def evPrio : Evaluator := ⟨[]⟩

/-- A catch-all rule with priority 1, no rollout and value `"one"`. -/
def rulePrio1 : TargetingRule := ⟨11, 1, [], .string "one", none, none⟩

/-- A catch-all rule with priority 2, no rollout and value `"two"`. -/
def rulePrio2 : TargetingRule := ⟨12, 2, [], .string "two", none, none⟩

/-- An enabled config declaring the priority-2 rule before the priority-1
rule, so the sort has to reorder them. -/
def cfgTwoPrio : EnvironmentConfig :=
  ⟨true, [rulePrio2, rulePrio1], .boolean false, none, false⟩

/-- A flag with `cfgTwoPrio` in `prod`. -/
def flagTwoPrio : Flag := ⟨"two-prio", .boolean, [("prod", cfgTwoPrio)]⟩

/-- A segment condition referring to segment 0 (`MatchesSegment`). -/
def scondSelf : SegmentCondition := ⟨"", .MatchesSegment, .segmentRef 0⟩

/-- The segment rule holding only `scondSelf`. -/
def ruleSelf : SegmentRule := ⟨[scondSelf]⟩

/-- Segment 0, whose only rule refers back to segment 0 itself. -/
def segSelf : Segment := ⟨0, [ruleSelf], [], []⟩

/-- An evaluator holding the self-referencing segment. -/
def evCyc : Evaluator := ⟨[(0, segSelf)]⟩

/-- The anonymous context (no user id, no attributes). -/
def ctxAnon : EvaluationContext := ⟨none, []⟩

/-! ## Claims -/

/-- **C1**: for every user key `u` and flag key `k`, `is_in_rollout u k 0` is
false and `is_in_rollout u k 100` is true (decided before hashing); for
`0 < p < 100`, `is_in_rollout u k p` is true exactly when the Murmur3-x86-32
hash (seed 0) of the concatenation `k ++ u` reduced modulo 100 is strictly
below `p`. -/
theorem C1_is_in_rollout_formula (u k : String) (p : Nat) :
    Evaluator.is_in_rollout u k 0 = false ∧
    Evaluator.is_in_rollout u k 100 = true ∧
    (0 < p → p < 100 →
      Evaluator.is_in_rollout u k p =
        decide (murmur3_32 (strBytes (k ++ u)) 0 % 100 < p)) := by
  refine ⟨rfl, rfl, fun h1 h2 => ?_⟩
  unfold Evaluator.is_in_rollout
  rw [if_neg (by omega), if_neg (by omega)]

/-- **C1** witness at `u = "user-123"`, `k = "my-flag"`, `p = 50`. -/
theorem C1_is_in_rollout_formula_witness :
    Evaluator.is_in_rollout "user-123" "my-flag" 0 = false ∧
    Evaluator.is_in_rollout "user-123" "my-flag" 100 = true ∧
    Evaluator.is_in_rollout "user-123" "my-flag" 50 =
      decide (murmur3_32 (strBytes ("my-flag" ++ "user-123")) 0 % 100 < 50) :=
  ⟨(C1_is_in_rollout_formula "user-123" "my-flag" 50).1,
   (C1_is_in_rollout_formula "user-123" "my-flag" 50).2.1,
   (C1_is_in_rollout_formula "user-123" "my-flag" 50).2.2 (by decide) (by decide)⟩

/-- **C3**: `is_enabled` is false for the five disabling reasons, equals the
truthiness of the value for the other three, and in particular evaluating a
flag in a disabled environment is never enabled, even when the returned
value is a non-empty string. -/
theorem C3_is_enabled_derivation (res : EvaluationResult) (ev : Evaluator)
    (flag : Flag) (environment : String) (context : EvaluationContext)
    (cfg : EnvironmentConfig) :
    ((res.reason = .FlagDisabled ∨ res.reason = .FlagNotFound ∨
        res.reason = .EnvironmentNotFound ∨ res.reason = .RolloutExcluded ∨
        res.reason = .Error) → res.is_enabled = false) ∧
    ((res.reason = .Default ∨ res.reason = .TargetingMatch ∨
        res.reason = .RolloutIncluded) → res.is_enabled = res.value.is_truthy) ∧
    (flag.get_environment environment = some cfg → cfg.enabled = false →
      (ev.evaluate flag environment context).is_enabled = false) := by
  refine ⟨?_, ?_, ?_⟩
  · rintro (h | h | h | h | h) <;> simp [EvaluationResult.is_enabled, h]
  · rintro (h | h | h) <;> simp [EvaluationResult.is_enabled, h]
  · intro hcfg hen
    simp [Evaluator.evaluate, hcfg, hen, EvaluationResult.disabled,
      EvaluationResult.is_enabled]

/-- **C3** witness: a disabled result carrying a non-empty string is not
enabled; a `Default` result reports its value's truthiness; evaluating the
string flag `flagAB` in its disabled `prod` environment is not enabled. -/
theorem C3_is_enabled_derivation_witness :
    (⟨.string "variant-a", .FlagDisabled, none, none⟩ : EvaluationResult).is_enabled
      = false ∧
    (⟨.string "variant-a", .Default, none, none⟩ : EvaluationResult).is_enabled
      = (FlagValue.string "variant-a").is_truthy ∧
    (evEmpty.evaluate flagAB "prod" (EvaluationContext.with_user_id "user-1")).is_enabled
      = false :=
  ⟨(C3_is_enabled_derivation ⟨.string "variant-a", .FlagDisabled, none, none⟩
      evEmpty flagAB "prod" (EvaluationContext.with_user_id "user-1")
      EnvironmentConfig.disabled).1 (Or.inl rfl),
   (C3_is_enabled_derivation ⟨.string "variant-a", .Default, none, none⟩
      evEmpty flagAB "prod" (EvaluationContext.with_user_id "user-1")
      EnvironmentConfig.disabled).2.1 (Or.inl rfl),
   (C3_is_enabled_derivation ⟨.string "variant-a", .Default, none, none⟩
      evEmpty flagAB "prod" (EvaluationContext.with_user_id "user-1")
      EnvironmentConfig.disabled).2.2 (by decide) rfl⟩

/-- **C10**: any `u8` percentage above 100 is treated as full rollout by the
pre-hash check, and both `with_rollout` builders clamp such an argument to
exactly 100. -/
theorem C10_rollout_clamping (u k : String) (p : Nat) (r : TargetingRule)
    (cfg : EnvironmentConfig) (hp : 100 < p) (hp' : p < 256) :
    Evaluator.is_in_rollout u k p = true ∧
    (r.with_rollout p).rollout_percentage = some 100 ∧
    (cfg.with_rollout p).rollout_percentage = some 100 := by
  refine ⟨?_, ?_, ?_⟩
  · unfold Evaluator.is_in_rollout
    rw [if_pos (by omega)]
  · simp [TargetingRule.with_rollout, Nat.min_eq_right hp.le]
  · simp [EnvironmentConfig.with_rollout, Nat.min_eq_right hp.le]

/-- **C10** witness at percentage 150. -/
theorem C10_rollout_clamping_witness :
    Evaluator.is_in_rollout "user-123" "my-flag" 150 = true ∧
    (rulePlain.with_rollout 150).rollout_percentage = some 100 ∧
    (cfgRoll.with_rollout 150).rollout_percentage = some 100 :=
  C10_rollout_clamping "user-123" "my-flag" 150 rulePlain cfgRoll (by decide) (by decide)

/-- `values_equal` is false on operands of differing variants. -/
theorem values_equal_mismatch {a b : AttributeValue}
    (h : a.sameVariant b = false) : Evaluator.values_equal a b = false := by
  cases a <;> cases b <;>
    simp_all [Evaluator.values_equal, AttributeValue.sameVariant]

/-- **C6 counterexample**: on the mismatched pair `(String "a", Number 1)`
the operator `NotEquals` — which is not `NotIn` — returns `true`, not
`false` as the claim demands for every operator other than `NotIn`. -/
theorem C6_counterexample_not_equals_mismatch :
    Evaluator.compare_values (.string "a") .NotEquals (.number 1) = true ∧
    AttributeValue.sameVariant (.string "a") (.number 1) = false ∧
    decide (Operator.NotEquals = Operator.NotIn) = false := by decide

/-- **C6 (amended)**: comparing operands of mismatched variants returns
`false` for every operator except the negated ones: `NotEquals` returns
`true` on any mismatched pair (while `Equals` returns `false`), and `NotIn`
returns `true` when the expected value is not a string-list or the actual
value is not a string (while `In` returns `false` on the same inputs). -/
theorem C6_mismatch_behaviour (a b : AttributeValue) (op : Operator) :
    (a.sameVariant b = false → op ≠ .NotEquals → op ≠ .In → op ≠ .NotIn →
      Evaluator.compare_values a op b = false) ∧
    (a.sameVariant b = false → Evaluator.compare_values a .NotEquals b = true) ∧
    (b.as_string_list = none →
      Evaluator.compare_values a .In b = false ∧
      Evaluator.compare_values a .NotIn b = true) ∧
    (a.as_str = none →
      Evaluator.compare_values a .In b = false ∧
      Evaluator.compare_values a .NotIn b = true) := by
  refine ⟨?_, ?_, ?_, ?_⟩
  · intro hsv hne hin hnotin
    cases op
    case NotEquals => exact absurd rfl hne
    case In => exact absurd rfl hin
    case NotIn => exact absurd rfl hnotin
    all_goals cases a <;> cases b <;>
      simp_all [Evaluator.compare_values, Evaluator.values_equal,
        AttributeValue.sameVariant, AttributeValue.as_str, AttributeValue.as_number]
  · intro hsv
    simp [Evaluator.compare_values, values_equal_mismatch hsv]
  · intro h
    cases b <;>
      simp_all [Evaluator.compare_values, AttributeValue.as_string_list]
  · intro h
    cases a <;> cases b <;>
      simp_all [Evaluator.compare_values, AttributeValue.as_str,
        AttributeValue.as_string_list]

/-- **C6** witness at `a = Number 1`, `b = Boolean true`, `op = Equals`:
`a` is not a string, `b` is neither a string-list nor `a`'s variant. -/
theorem C6_mismatch_behaviour_witness :
    Evaluator.compare_values (.number 1) .Equals (.boolean true) = false ∧
    Evaluator.compare_values (.number 1) .NotEquals (.boolean true) = true ∧
    (Evaluator.compare_values (.number 1) .In (.boolean true) = false ∧
      Evaluator.compare_values (.number 1) .NotIn (.boolean true) = true) :=
  ⟨(C6_mismatch_behaviour (.number 1) (.boolean true) .Equals).1 (by decide)
      (by decide) (by decide) (by decide),
   (C6_mismatch_behaviour (.number 1) (.boolean true) .Equals).2.1 (by decide),
   (C6_mismatch_behaviour (.number 1) (.boolean true) .Equals).2.2.1 (by decide)⟩

/-- Membership in a segment id absent from the map is false at every fuel. -/
theorem membership_unknown_segment (ev : Evaluator) (ctx : EvaluationContext)
    (sid : SegmentId) (h : ev.segments.lookup sid = none) :
    ∀ fuel, ev.evaluate_segment_membership_fueled fuel sid ctx = false := by
  intro fuel
  cases fuel with
  | zero => rfl
  | succ n =>
    unfold Evaluator.evaluate_segment_membership_fueled
    rw [h]

/-- **C5 counterexample**: a `NotMatchesSegment` condition referencing the
unknown segment id 99 evaluates to `true`, not `false` as the claim states
for both segment operators. -/
theorem C5_counterexample_not_matches_unknown :
    evEmpty.segments.lookup 99 = none ∧
    evEmpty.evaluate_condition ⟨"", .NotMatchesSegment, .segmentRef 99⟩
      (EvaluationContext.with_user_id "u") = true := by decide

/-- **C5 (amended)**: membership in an unknown segment id is false
(closed-world, no error), so a `MatchesSegment` condition referencing it
evaluates to `false` — but a `NotMatchesSegment` condition negates the
membership and therefore evaluates to `true`. -/
theorem C5_unknown_segment_closed_world (ev : Evaluator) (ctx : EvaluationContext)
    (a : String) (sid : SegmentId) (h : ev.segments.lookup sid = none) :
    ev.evaluate_segment_membership sid ctx = false ∧
    ev.evaluate_condition ⟨a, .MatchesSegment, .segmentRef sid⟩ ctx = false ∧
    ev.evaluate_condition ⟨a, .NotMatchesSegment, .segmentRef sid⟩ ctx = true := by
  have hm := membership_unknown_segment ev ctx sid h
  refine ⟨hm _, ?_, ?_⟩ <;>
    · simp [Evaluator.evaluate_condition, Evaluator.evaluate_condition_fueled,
        evalConditionWith, AttributeValue.as_segment_ref, hm]

/-- **C5** witness at segment id 99 on the segment-free evaluator. -/
theorem C5_unknown_segment_closed_world_witness :
    evEmpty.evaluate_segment_membership 99 (EvaluationContext.with_user_id "u") = false ∧
    evEmpty.evaluate_condition ⟨"", .MatchesSegment, .segmentRef 99⟩
      (EvaluationContext.with_user_id "u") = false ∧
    evEmpty.evaluate_condition ⟨"", .NotMatchesSegment, .segmentRef 99⟩
      (EvaluationContext.with_user_id "u") = true :=
  C5_unknown_segment_closed_world evEmpty (EvaluationContext.with_user_id "u") "" 99 rfl

/-- **C7**: when the context's user id is on the segment's `excluded_users`
list, membership is false, even when the same user is on `included_users`
and the context matches a segment rule; exclusion is decided first, then
explicit inclusion, then OR-of-AND rule evaluation. -/
theorem C7_exclusion_precedence (ev : Evaluator) (seg : Segment)
    (ctx : EvaluationContext) (sid : SegmentId) (user_id : String)
    (hseg : ev.segments.lookup sid = some seg) (huid : ctx.user_id = some user_id) :
    (seg.is_excluded user_id = true → ev.evaluate_segment_membership sid ctx = false) ∧
    (seg.is_excluded user_id = false → seg.is_included user_id = true →
      ev.evaluate_segment_membership sid ctx = true) ∧
    (seg.is_excluded user_id = false → seg.is_included user_id = false →
      ev.evaluate_segment_membership sid ctx =
        seg.rules.any (fun rule =>
          rule.conditions.all (fun c =>
            ev.evaluate_condition_fueled ev.segments.length
              ⟨c.attribute, c.operator, c.value⟩ ctx))) := by
  refine ⟨fun hexc => ?_, fun hexc hinc => ?_, fun hexc hinc => ?_⟩
  · unfold Evaluator.evaluate_segment_membership Evaluator.condition_fuel
      Evaluator.evaluate_segment_membership_fueled
    rw [hseg, huid]
    simp [hexc]
  · unfold Evaluator.evaluate_segment_membership Evaluator.condition_fuel
      Evaluator.evaluate_segment_membership_fueled
    rw [hseg, huid]
    simp [hexc, hinc]
  · unfold Evaluator.evaluate_segment_membership Evaluator.condition_fuel
      Evaluator.evaluate_segment_membership_fueled
    rw [hseg, huid]
    simp [hexc, hinc, Evaluator.evaluate_condition_fueled]

/-- **C7** witness: user `u7` is excluded, included and rule-matched in
`segExc`, yet not a member; in `segInc` (not excluded, included) membership
is true; in `segRules` membership follows the rules. -/
theorem C7_exclusion_precedence_witness :
    (evSegs.evaluate_segment_membership 7 (EvaluationContext.with_user_id "u7") = false) ∧
    (evSegs.evaluate_segment_membership 9 (EvaluationContext.with_user_id "u7") = true) ∧
    (evSegs.evaluate_segment_membership 10 (EvaluationContext.with_user_id "u7") =
      segRules.rules.any (fun rule =>
        rule.conditions.all (fun c =>
          evSegs.evaluate_condition_fueled evSegs.segments.length
            ⟨c.attribute, c.operator, c.value⟩ (EvaluationContext.with_user_id "u7")))) :=
  ⟨(C7_exclusion_precedence evSegs segExc (EvaluationContext.with_user_id "u7") 7 "u7"
      (by decide) rfl).1 rfl,
   (C7_exclusion_precedence evSegs segInc (EvaluationContext.with_user_id "u7") 9 "u7"
      (by decide) rfl).2.1 rfl rfl,
   (C7_exclusion_precedence evSegs segRules (EvaluationContext.with_user_id "u7") 10 "u7"
      (by decide) rfl).2.2 rfl rfl⟩

/-- Unfolding equation for one step of the rule loop. -/
theorem evaluate_rules_cons (ev : Evaluator) (flag_key : String)
    (context : EvaluationContext) (rule : TargetingRule)
    (rest : List TargetingRule) :
    ev.evaluate_rules flag_key context (rule :: rest) =
      if ev.evaluate_rule rule context then
        match rule.rollout_percentage with
        | some percentage =>
          if Evaluator.is_in_rollout context.effective_user_id flag_key percentage then
            some ⟨rule.value, .TargetingMatch, some rule.id, some true⟩
          else ev.evaluate_rules flag_key context rest
        | none => some ⟨rule.value, .TargetingMatch, some rule.id, none⟩
      else ev.evaluate_rules flag_key context rest := rfl

/-- **C2**: a rule whose conditions match but whose rollout excludes the
context's effective user id is skipped: deleting it from the scanned list
does not change the outcome of the rule loop, and `evaluate` proceeds with
the remaining rules, then the global rollout, then the environment default. -/
theorem C2_rolled_out_rule_skipped (ev : Evaluator) (flag : Flag)
    (environment : String) (context : EvaluationContext) (r : TargetingRule)
    (p : Nat) (rs₁ rs₂ : List TargetingRule) (cfg : EnvironmentConfig)
    (hmatch : ev.evaluate_rule r context = true)
    (hroll : r.rollout_percentage = some p)
    (hout : Evaluator.is_in_rollout context.effective_user_id flag.key p = false)
    (hcfg : flag.get_environment environment = some cfg)
    (hen : cfg.enabled = true)
    (hsort : sortRules cfg.rules = rs₁ ++ r :: rs₂) :
    ev.evaluate_rules flag.key context (rs₁ ++ r :: rs₂) =
      ev.evaluate_rules flag.key context (rs₁ ++ rs₂) ∧
    ev.evaluate flag environment context =
      (match ev.evaluate_rules flag.key context (rs₁ ++ rs₂) with
        | some result => result
        | none => Evaluator.apply_global_rollout flag cfg context) := by
  have hskip : ∀ l : List TargetingRule,
      ev.evaluate_rules flag.key context (r :: l) =
        ev.evaluate_rules flag.key context l := by
    intro l
    rw [evaluate_rules_cons, hroll]
    simp [hmatch, hout]
  have hmain : ∀ l : List TargetingRule,
      ev.evaluate_rules flag.key context (l ++ r :: rs₂) =
        ev.evaluate_rules flag.key context (l ++ rs₂) := by
    intro l
    induction l with
    | nil => simpa using hskip rs₂
    | cons a t ih =>
      simp only [List.cons_append]
      rw [evaluate_rules_cons, evaluate_rules_cons, ih]
  refine ⟨hmain rs₁, ?_⟩
  simp [Evaluator.evaluate, hcfg, hen, hsort, hmain rs₁]

/-- **C2** witness: for user `user-123` and flag `my-flag` the 1% rollout of
`ruleRoll` excludes the user (bucket 42), so the loop outcome over
`[ruleRoll, rulePlain]` equals the outcome over `[rulePlain]` alone, and
`evaluate` falls through to `rulePlain`. -/
theorem C2_rolled_out_rule_skipped_witness :
    evEmpty.evaluate_rules flagRoll.key ctx123 [ruleRoll, rulePlain] =
      evEmpty.evaluate_rules flagRoll.key ctx123 [rulePlain] ∧
    evEmpty.evaluate flagRoll "prod" ctx123 =
      (match evEmpty.evaluate_rules flagRoll.key ctx123 [rulePlain] with
        | some result => result
        | none => Evaluator.apply_global_rollout flagRoll cfgRoll ctx123) :=
  C2_rolled_out_rule_skipped evEmpty flagRoll "prod" ctx123 ruleRoll 1 []
    [rulePlain] cfgRoll rfl rfl (by decide) (by decide) rfl (by decide)

/-- **C4 counterexample**: in the `prod` config of `flagPrio` the first rule
in sorted order that matches and has no rollout percentage is `ruleB100`
(value `"B"`), yet `evaluate` returns the value `"A"` of the earlier
matching rule whose 100% rollout includes every user — so that first
rollout-free matching rule does not determine the result as claimed. -/
theorem C4_counterexample_rollout_match_first :
    evPrio.evaluate flagPrio "prod" ctx123 =
      ⟨.string "A", .TargetingMatch, some 1, some true⟩ ∧
    ((sortRules cfgPrio.rules).filter (fun rr =>
        evPrio.evaluate_rule rr ctx123 && rr.rollout_percentage.isNone)).head? =
      some ruleB100 ∧
    ruleB100.value = .string "B" ∧
    decide ((⟨.string "A", .TargetingMatch, some 1, some true⟩ : EvaluationResult) =
      ⟨.string "B", .TargetingMatch, some 2, none⟩) = false := by decide

/-- **C4 (amended)**: `evaluate` scans the environment's rules sorted by
ascending priority with a stable sort (the sorted list is a permutation,
is pairwise ordered by priority, and preserves the declaration order of
priority ties); the first rule in that order whose conditions all match and
that has no rollout percentage determines the result
`{TargetingMatch, rule.value, rule.id}` provided every earlier rule either
fails to match or carries a rollout percentage that excludes the user; in
particular, when rules with priorities 1 and 2 both match and carry no
rollout, the priority-1 rule's value is returned. -/
theorem C4_priority_order (ev : Evaluator) (flag : Flag) (environment : String)
    (context : EvaluationContext) (cfg : EnvironmentConfig) (r : TargetingRule)
    (rs₁ rs₂ : List TargetingRule)
    (hcfg : flag.get_environment environment = some cfg)
    (hen : cfg.enabled = true)
    (hsort : sortRules cfg.rules = rs₁ ++ r :: rs₂)
    (hmatch : ev.evaluate_rule r context = true)
    (hnoroll : r.rollout_percentage = none)
    (hprev : ∀ r' ∈ rs₁, ev.evaluate_rule r' context = false ∨
      ∃ p, r'.rollout_percentage = some p ∧
        Evaluator.is_in_rollout context.effective_user_id flag.key p = false) :
    ev.evaluate flag environment context = ⟨r.value, .TargetingMatch, some r.id, none⟩ ∧
    (sortRules cfg.rules).Perm cfg.rules ∧
    (sortRules cfg.rules).Pairwise (fun a b => a.priority ≤ b.priority) ∧
    (∀ a b : TargetingRule, a.priority ≤ b.priority →
      List.Sublist [a, b] cfg.rules → List.Sublist [a, b] (sortRules cfg.rules)) := by
  have hloop : ∀ l : List TargetingRule,
      (∀ r' ∈ l, ev.evaluate_rule r' context = false ∨
        ∃ p, r'.rollout_percentage = some p ∧
          Evaluator.is_in_rollout context.effective_user_id flag.key p = false) →
      ev.evaluate_rules flag.key context (l ++ r :: rs₂) =
        some ⟨r.value, .TargetingMatch, some r.id, none⟩ := by
    intro l
    induction l with
    | nil =>
      intro _
      simp only [List.nil_append]
      rw [evaluate_rules_cons, hnoroll]
      simp [hmatch]
    | cons a t ih =>
      intro hl
      simp only [List.cons_append]
      rw [evaluate_rules_cons]
      rcases hl a (List.mem_cons_self a t) with ha | ⟨p, hp, hpout⟩
      · simp [ha, ih (fun r' hr' => hl r' (List.mem_cons_of_mem a hr'))]
      · rw [hp]
        cases hra : ev.evaluate_rule a context <;>
          simp [hpout, ih (fun r' hr' => hl r' (List.mem_cons_of_mem a hr'))]
  refine ⟨?_, List.perm_insertionSort rulePriorityLE cfg.rules, ?_, ?_⟩
  · simp [Evaluator.evaluate, hcfg, hen, hsort, hloop rs₁ hprev]
  · exact List.sorted_insertionSort rulePriorityLE cfg.rules
  · intro a b hab hsub
    exact List.pair_sublist_insertionSort (r := rulePriorityLE) hab hsub

/-- **C4** witness: the `prod` config declares the priority-2 catch-all rule
before the priority-1 one; the sort reorders them and the priority-1 rule's
value `"one"` is returned. -/
theorem C4_priority_order_witness :
    evEmpty.evaluate flagTwoPrio "prod" ctx123 =
      ⟨.string "one", .TargetingMatch, some 11, none⟩ ∧
    (sortRules cfgTwoPrio.rules).Perm cfgTwoPrio.rules ∧
    (sortRules cfgTwoPrio.rules).Pairwise (fun a b => a.priority ≤ b.priority) ∧
    (∀ a b : TargetingRule, a.priority ≤ b.priority →
      List.Sublist [a, b] cfgTwoPrio.rules →
      List.Sublist [a, b] (sortRules cfgTwoPrio.rules)) :=
  C4_priority_order evEmpty flagTwoPrio "prod" ctx123 cfgTwoPrio rulePrio1 []
    [rulePrio2] (by decide) rfl (by decide) rfl rfl
    (fun r' hr' => absurd hr' (List.not_mem_nil r'))

/-- Sorting strings is invariant under permutation of the input: both sorts
are sorted permutations of the same multiset, hence equal by antisymmetry. -/
theorem sortStrings_congr_perm {l₁ l₂ : List String} (h : l₁.Perm l₂) :
    sortStrings l₁ = sortStrings l₂ :=
  List.eq_of_perm_of_sorted
    ((List.perm_insertionSort _ l₁).trans (h.trans (List.perm_insertionSort _ l₂).symm))
    (List.sorted_insertionSort _ l₁) (List.sorted_insertionSort _ l₂)

/-- **C8**: `effective_user_id` is a pure function of the context's content:
a set `user_id` is returned verbatim; otherwise the result is `anonymous:`
followed by the lexicographically sorted, comma-joined
`key:debug-rendering-of-value` pairs — so contexts with the same user id
and the same attribute bindings (in any order) agree on it. -/
theorem C8_effective_user_id_stable (c₁ c₂ : EvaluationContext) (uid : String) :
    (c₁.user_id = some uid → c₁.effective_user_id = uid) ∧
    (c₁.user_id = none → c₁.effective_user_id =
      "anonymous:" ++ String.intercalate ","
        (sortStrings (c₁.attributes.map (fun kv => kv.1 ++ ":" ++ kv.2.debugRender)))) ∧
    (c₁.user_id = c₂.user_id → c₁.attributes.Perm c₂.attributes →
      c₁.effective_user_id = c₂.effective_user_id) := by
  refine ⟨?_, ?_, ?_⟩
  · intro h
    simp [EvaluationContext.effective_user_id, h]
  · intro h
    simp [EvaluationContext.effective_user_id, h]
  · intro hu hp
    unfold EvaluationContext.effective_user_id
    rw [hu]
    cases c₂.user_id with
    | some u => rfl
    | none =>
      have := sortStrings_congr_perm (hp.map (fun kv => kv.1 ++ ":" ++ kv.2.debugRender))
      simp only [this]

/-- **C8** witness: a context with a user id returns it verbatim, and the
contexts `{plan ↦ "pro", country ↦ "FR"}` built in the two insertion orders
have identical `effective_user_id`s. -/
theorem C8_effective_user_id_stable_witness :
    (EvaluationContext.with_user_id "user-123").effective_user_id = "user-123" ∧
    ((EvaluationContext.new.set "plan" (.string "pro")).set "country"
        (.string "FR")).effective_user_id =
      ((EvaluationContext.new.set "country" (.string "FR")).set "plan"
        (.string "pro")).effective_user_id :=
  ⟨(C8_effective_user_id_stable (EvaluationContext.with_user_id "user-123")
      EvaluationContext.new "user-123").1 rfl,
   (C8_effective_user_id_stable
      ((EvaluationContext.new.set "plan" (.string "pro")).set "country" (.string "FR"))
      ((EvaluationContext.new.set "country" (.string "FR")).set "plan" (.string "pro"))
      "user-123").2.2 rfl (by decide)⟩

/-- Adequacy of `BigStep` for the fueled embedding: whenever the source
recursion returns (a derivation exists), the fueled functions compute the
same result at every sufficiently large fuel. -/
theorem bigStep_sound {ev : Evaluator} {ctx : EvaluationContext} {j : EvalForm}
    {b : Bool} (h : BigStep ev ctx j b) :
    ∃ n, ∀ fuel, n ≤ fuel → evalFormFueled ev fuel ctx j = b := by
  induction h with
  | @matchesSeg c sid b h1 h2 hsub ih =>
    obtain ⟨n, hn⟩ := ih
    refine ⟨n + 1, fun fuel hf => ?_⟩
    obtain ⟨f, rfl⟩ : ∃ f, fuel = f + 1 := ⟨fuel - 1, by omega⟩
    have hm := hn f (by omega)
    simp only [evalFormFueled] at hm
    simpa [evalFormFueled, Evaluator.evaluate_condition_fueled, evalConditionWith,
      h1, h2] using hm
  | @matchesSegNoRef c h1 h2 =>
    exact ⟨0, fun fuel _ => by
      simp [evalFormFueled, Evaluator.evaluate_condition_fueled, evalConditionWith,
        h1, h2]⟩
  | @notMatchesSeg c sid b h1 h2 hsub ih =>
    obtain ⟨n, hn⟩ := ih
    refine ⟨n + 1, fun fuel hf => ?_⟩
    obtain ⟨f, rfl⟩ : ∃ f, fuel = f + 1 := ⟨fuel - 1, by omega⟩
    have hm := hn f (by omega)
    simp only [evalFormFueled] at hm
    simpa [evalFormFueled, Evaluator.evaluate_condition_fueled, evalConditionWith,
      h1, h2] using hm
  | @notMatchesSegNoRef c h1 h2 =>
    exact ⟨0, fun fuel _ => by
      simp [evalFormFueled, Evaluator.evaluate_condition_fueled, evalConditionWith,
        h1, h2]⟩
  | @attrFound c v h1 h2 h3 =>
    exact ⟨0, fun fuel _ => by
      simp [evalFormFueled, Evaluator.evaluate_condition_fueled, evalConditionWith,
        h1, h2, h3]⟩
  | @attrMissing c h1 h2 h3 =>
    exact ⟨0, fun fuel _ => by
      simp [evalFormFueled, Evaluator.evaluate_condition_fueled, evalConditionWith,
        h1, h2, h3]⟩
  | condsNil =>
    exact ⟨0, fun fuel _ => by simp [evalFormFueled]⟩
  | @condsConsFalse c cs hsub ih =>
    obtain ⟨n, hn⟩ := ih
    refine ⟨n, fun fuel hf => ?_⟩
    have hc := hn fuel hf
    simp only [evalFormFueled] at hc
    simp [evalFormFueled, hc]
  | @condsConsTrue c cs b hsub1 hsub2 ih1 ih2 =>
    obtain ⟨n1, hn1⟩ := ih1
    obtain ⟨n2, hn2⟩ := ih2
    refine ⟨max n1 n2, fun fuel hf => ?_⟩
    have hc := hn1 fuel (le_trans (le_max_left _ _) hf)
    have hcs := hn2 fuel (le_trans (le_max_right _ _) hf)
    simp only [evalFormFueled] at hc hcs
    simp [evalFormFueled, hc, hcs]
  | rulesNil =>
    exact ⟨0, fun fuel _ => by simp [evalFormFueled]⟩
  | @rulesConsTrue r rs hsub ih =>
    obtain ⟨n, hn⟩ := ih
    refine ⟨n, fun fuel hf => ?_⟩
    have hc := hn fuel hf
    simp only [evalFormFueled] at hc
    simp [evalFormFueled, hc]
  | @rulesConsFalse r rs b hsub1 hsub2 ih1 ih2 =>
    obtain ⟨n1, hn1⟩ := ih1
    obtain ⟨n2, hn2⟩ := ih2
    refine ⟨max n1 n2, fun fuel hf => ?_⟩
    have hc := hn1 fuel (le_trans (le_max_left _ _) hf)
    have hrs := hn2 fuel (le_trans (le_max_right _ _) hf)
    simp only [evalFormFueled] at hc hrs
    simp [evalFormFueled, hc, hrs]
  | @memNotFound sid h1 =>
    exact ⟨0, fun fuel _ => by
      simp [evalFormFueled, Evaluator.evaluate_segment_membership_fueled, h1]⟩
  | @memExcluded sid seg user_id h1 h2 h3 =>
    exact ⟨0, fun fuel _ => by
      simp [evalFormFueled, Evaluator.evaluate_segment_membership_fueled,
        h1, h2, h3]⟩
  | @memIncluded sid seg user_id h1 h2 h3 h4 =>
    rw [h3] at h2
    simp at h2
    exact ⟨0, fun fuel _ => by
      simp [evalFormFueled, Evaluator.evaluate_segment_membership_fueled,
        h1, h2, h3, h4]⟩
  | @memRules sid seg b h1 h2 h3 hsub ih =>
    obtain ⟨n, hn⟩ := ih
    refine ⟨n, fun fuel hf => ?_⟩
    have hr := hn fuel hf
    simp only [evalFormFueled, Evaluator.evaluate_condition_fueled] at hr
    simp [evalFormFueled, Evaluator.evaluate_segment_membership_fueled,
      h1, h2, h3, hr]

/-- A judgment has at most one big-step result. -/
theorem bigStep_deterministic {ev : Evaluator} {ctx : EvaluationContext}
    {j : EvalForm} {b₁ b₂ : Bool}
    (h₁ : BigStep ev ctx j b₁) (h₂ : BigStep ev ctx j b₂) : b₁ = b₂ := by
  obtain ⟨n₁, hn₁⟩ := bigStep_sound h₁
  obtain ⟨n₂, hn₂⟩ := bigStep_sound h₂
  exact (hn₁ (max n₁ n₂) (le_max_left _ _)).symm.trans
    (hn₂ (max n₁ n₂) (le_max_right _ _))

/-- Every big-step derivation of one of the four judgments reachable from
`mem 0` on the cyclic evaluator contains a strictly smaller derivation of
another of them, so no derivation exists. -/
theorem bigStep_cycle_aux (j : EvalForm) (b : Bool)
    (h : BigStep evCyc ctxAnon j b) :
    j = .mem 0 ∨ j = .cond ⟨"", .MatchesSegment, .segmentRef 0⟩ ∨
      j = .conds [scondSelf] ∨ j = .rules [ruleSelf] → False := by
  induction h with
  | @matchesSeg c sid b h1 h2 hsub ih =>
    rintro (hj | hj | hj | hj)
    · exact absurd hj (by simp)
    · injection hj with hc
      subst hc
      simp only [AttributeValue.as_segment_ref, Option.some.injEq] at h2
      subst h2
      exact ih (Or.inl rfl)
    · exact absurd hj (by simp)
    · exact absurd hj (by simp)
  | @matchesSegNoRef c h1 h2 =>
    rintro (hj | hj | hj | hj)
    · exact absurd hj (by simp)
    · injection hj with hc
      subst hc
      exact absurd h2 (by simp [AttributeValue.as_segment_ref])
    · exact absurd hj (by simp)
    · exact absurd hj (by simp)
  | @notMatchesSeg c sid b h1 h2 hsub ih =>
    rintro (hj | hj | hj | hj)
    · exact absurd hj (by simp)
    · injection hj with hc
      subst hc
      exact absurd h1 (by simp)
    · exact absurd hj (by simp)
    · exact absurd hj (by simp)
  | @notMatchesSegNoRef c h1 h2 =>
    rintro (hj | hj | hj | hj)
    · exact absurd hj (by simp)
    · injection hj with hc
      subst hc
      exact absurd h1 (by simp)
    · exact absurd hj (by simp)
    · exact absurd hj (by simp)
  | @attrFound c v h1 h2 h3 =>
    rintro (hj | hj | hj | hj)
    · exact absurd hj (by simp)
    · injection hj with hc
      subst hc
      exact h1 rfl
    · exact absurd hj (by simp)
    · exact absurd hj (by simp)
  | @attrMissing c h1 h2 h3 =>
    rintro (hj | hj | hj | hj)
    · exact absurd hj (by simp)
    · injection hj with hc
      subst hc
      exact h1 rfl
    · exact absurd hj (by simp)
    · exact absurd hj (by simp)
  | condsNil =>
    rintro (hj | hj | hj | hj) <;> exact absurd hj (by simp [scondSelf])
  | @condsConsFalse c cs hsub ih =>
    rintro (hj | hj | hj | hj)
    · exact absurd hj (by simp)
    · exact absurd hj (by simp)
    · injection hj with hl
      injection hl with hc hcs
      subst hc
      exact ih (Or.inr (Or.inl rfl))
    · exact absurd hj (by simp)
  | @condsConsTrue c cs b hsub1 hsub2 ih1 ih2 =>
    rintro (hj | hj | hj | hj)
    · exact absurd hj (by simp)
    · exact absurd hj (by simp)
    · injection hj with hl
      injection hl with hc hcs
      subst hc
      exact ih1 (Or.inr (Or.inl rfl))
    · exact absurd hj (by simp)
  | rulesNil =>
    rintro (hj | hj | hj | hj) <;> exact absurd hj (by simp [ruleSelf])
  | @rulesConsTrue r rs hsub ih =>
    rintro (hj | hj | hj | hj)
    · exact absurd hj (by simp)
    · exact absurd hj (by simp)
    · exact absurd hj (by simp)
    · injection hj with hl
      injection hl with hr hrs
      subst hr
      exact ih (Or.inr (Or.inr (Or.inl rfl)))
  | @rulesConsFalse r rs b hsub1 hsub2 ih1 ih2 =>
    rintro (hj | hj | hj | hj)
    · exact absurd hj (by simp)
    · exact absurd hj (by simp)
    · exact absurd hj (by simp)
    · injection hj with hl
      injection hl with hr hrs
      subst hr
      exact ih1 (Or.inr (Or.inr (Or.inl rfl)))
  | @memNotFound sid h1 =>
    rintro (hj | hj | hj | hj)
    · injection hj with hs
      subst hs
      exact absurd h1 (by decide)
    · exact absurd hj (by simp)
    · exact absurd hj (by simp)
    · exact absurd hj (by simp)
  | @memExcluded sid seg user_id h1 h2 h3 =>
    exact fun _ => Option.noConfusion h2
  | @memIncluded sid seg user_id h1 h2 h3 h4 =>
    exact fun _ => Option.noConfusion h3
  | @memRules sid seg b h1 h2 h3 hsub ih =>
    rintro (hj | hj | hj | hj)
    · injection hj with hs
      subst hs
      have hseg : segSelf = seg := Option.some.inj (show some segSelf = some seg from h1)
      subst hseg
      exact ih (Or.inr (Or.inr (Or.inr rfl)))
    · exact absurd hj (by simp)
    · exact absurd hj (by simp)
    · exact absurd hj (by simp)

/-- **C9**: on the evaluator holding the self-referencing segment `segSelf`
with the anonymous context, the membership query for segment 0 has no
big-step result at all — the source recursion
(`evaluate_condition` / `evaluate_segment_membership`) never returns on
this input, so `evaluate` of any flag whose rules reference segment 0 is
not total. -/
theorem C9_cyclic_segment_diverges :
    ∀ b : Bool, BigStep evCyc ctxAnon (.mem 0) b = False :=
  fun b => eq_false (fun h => bigStep_cycle_aux (.mem 0) b h (Or.inl rfl))

end Flaps
